import Mathlib

/-!
Formal model of the Payroll repository (dynamic_payroll_pdf_generator.py and
email_store.py), as a shallow embedding in Lean 4.

Conventions of the embedding:
- Python float values are modelled as exact rationals.  Decimal numerals
  parsed from CSV cells are given their exact decimal value; the binary
  rounding of IEEE floats is not modelled.
- Python strings are Lean Strings; str.strip, str.lower, str.isdigit and
  substring containment are re-implemented over the character list so that
  concrete evaluations reduce in the kernel.
- Python dicts keyed by strings are modelled as association lists with
  insertion-order semantics: updating an existing key keeps its position,
  a new key is appended at the end.  dict iteration order is list order.
- Fallible code paths are modelled with Option and Except.
-/

set_option maxRecDepth 10000

attribute [local semireducible] Rat.add Rat.sub Rat.mul Rat.inv Rat.ofScientific

/-- Python abs on a rational. -/
def pyAbs (q : ℚ) : ℚ := if q < 0 then -q else q

/-! ### String primitives (Python str.strip, str.lower, substring test) -/

/-- Characters of a string with surrounding whitespace removed, as in the
Python str.strip method. -/
def stripChars (cs : List Char) : List Char :=
  ((cs.dropWhile Char.isWhitespace).reverse.dropWhile Char.isWhitespace).reverse

/-- Python str.strip. -/
def pyStrip (s : String) : String := ⟨stripChars s.data⟩

/-- Python str.lower (ASCII letters). -/
def pyLower (s : String) : String := ⟨s.data.map Char.toLower⟩

/-- Python str.isdigit restricted to ASCII digits: nonempty and all digits. -/
def pyIsDigit (s : String) : Bool := !s.data.isEmpty && s.data.all Char.isDigit

/-- Prefix test on character lists. -/
def isPrefixCL : List Char → List Char → Bool
  | [], _ => true
  | _ :: _, [] => false
  | a :: as, b :: bs => a == b && isPrefixCL as bs

/-- Contiguous-substring test on character lists, as the Python in operator
on strings. -/
def isInfixCL (p : List Char) : List Char → Bool
  | [] => p.isEmpty
  | c :: t => isPrefixCL p (c :: t) || isInfixCL p t

/-- Python substring containment: p in s. -/
def substrS (p s : String) : Bool := isInfixCL p.data s.data

/-! ### Numeric Normalizer: safe_float and parse_percent
(dynamic_payroll_pdf_generator.py lines 224 to 253). -/

/-- Value of a list of ASCII digits read in base 10. -/
def digitsToNat (cs : List Char) : Nat := cs.foldl (fun n c => 10 * n + (c.toNat - 48)) 0

/-- Python float() on an unsigned numeral over the alphabet of digits and
one optional dot: digits, digits.digits, .digits or digits. with at least
one digit; anything else fails. -/
def pyFloatPos (cs : List Char) : Option ℚ :=
  let ip := cs.takeWhile Char.isDigit
  let rest := cs.drop ip.length
  match rest with
  | [] => if ip.isEmpty then none else some (digitsToNat ip : ℚ)
  | '.' :: frac =>
      if frac.all Char.isDigit ∧ (ip ≠ [] ∨ frac ≠ []) then
        some ((digitsToNat ip : ℚ) + (digitsToNat frac : ℚ) / ((10 : ℚ) ^ frac.length))
      else none
  | _ => none

/-- Python float() on the alphabet of digits, dot and minus (the only
characters that survive the cleaning step of safe_float). -/
def pyFloatChars : List Char → Option ℚ
  | '-' :: rest => (pyFloatPos rest).map (fun q => -q)
  | cs => pyFloatPos cs

/-- Core of DynamicPayrollProcessor.safe_float (lines 224 to 239): strip,
treat empty and lone dashes as missing, drop every character that is not a
digit, dot or minus (this also removes the commas and currency symbols that
the source deletes explicitly first), then parse; none models the default
return.  safe_float with default=None in the source corresponds to this
function directly. -/
def safeFloatCore (s : String) : Option ℚ :=
  let t := pyStrip s
  if t = "" ∨ t = "-" ∨ t = "—" ∨ t = "–" then none
  else
    let cs := t.data.filter (fun c => c.isDigit || c == '.' || c == '-')
    if cs = [] ∨ cs = ['.'] ∨ cs = ['-'] then none
    else pyFloatChars cs

/-- DynamicPayrollProcessor.safe_float with a rational default. -/
def safe_float (s : String) (default : ℚ) : ℚ := (safeFloatCore s).getD default

/-- Core of DynamicPayrollProcessor.parse_percent (lines 241 to 253): strip,
treat empty and lone dashes as missing, remove every percent sign, parse with
safe_float and divide by 100; none models the default return. -/
def parsePercentCore (s : String) : Option ℚ :=
  let t := pyStrip s
  if t = "" ∨ t = "-" ∨ t = "—" ∨ t = "–" then none
  else (safeFloatCore (pyStrip ⟨t.data.filter (fun c => !(c == '%'))⟩)).map (fun v => v / 100)

/-- DynamicPayrollProcessor.parse_percent with a rational default. -/
def parse_percent (s : String) (default : ℚ) : ℚ := (parsePercentCore s).getD default

/-! ### Header normalization and the period-header pattern
(PERIOD_HEADER_REGEX at line 51 and helpers at lines 54 to 63). -/

/-- Collapse every maximal run of whitespace to a single space,
as re.sub of one-or-more whitespace with a space. -/
def collapseWs (cs : List Char) : List Char :=
  cs.foldr (fun c acc =>
    if c.isWhitespace then (if acc.head? = some ' ' then acc else ' ' :: acc) else c :: acc) []

/-- The helper _normalize_header_text (lines 54 to 58): replace unicode
dashes by the ASCII hyphen, strip, collapse inner whitespace. -/
def normalizeHeaderText (s : String) : String :=
  ⟨collapseWs (stripChars (s.data.map (fun c => if c == '–' || c == '—' then '-' else c)))⟩

/-- Number of leading whitespace characters. -/
def wsCount (cs : List Char) : Nat := (cs.takeWhile Char.isWhitespace).length

/-- Number of leading ASCII digits. -/
def digCount (cs : List Char) : Nat := (cs.takeWhile Char.isDigit).length

/-- Matches the tail of PERIOD_HEADER_REGEX, namely whitespace, a dash-like
separator, whitespace and one or two digits; returns the consumed length. -/
def tailMatchLen (cs : List Char) : Option Nat :=
  let w1 := wsCount cs
  match cs.drop w1 with
  | c :: rest =>
    if c == '-' || c == '–' || c == '—' then
      let w2 := wsCount rest
      let d := min 2 (digCount (rest.drop w2))
      if 1 ≤ d then some (w1 + 1 + w2 + d) else none
    else none
  | [] => none

/-- Matches whitespace, zero to two digits (greedy with backtracking), then
the dash tail of the pattern; returns the consumed length. -/
def midMatchLen (cs : List Char) : Option Nat :=
  let w := wsCount cs
  let cs2 := cs.drop w
  let dmax := min 2 (digCount cs2)
  ((List.range (dmax + 1)).reverse).findSome? fun k =>
    (tailMatchLen (cs2.drop k)).map (fun t => w + k + t)

/-- Matches an optional dot then the middle of the pattern. -/
def afterLettersLen (cs : List Char) : Option Nat :=
  match cs with
  | '.' :: rest =>
    match (midMatchLen rest).map (· + 1) with
    | some n => some n
    | none => midMatchLen cs
  | _ => midMatchLen cs

/-- Match of the whole PERIOD_HEADER_REGEX anchored at the start of cs:
three or more letters, an optional dot, whitespace, zero to two digits,
whitespace, a dash, whitespace, one or two digits. -/
def startMatchLen (cs : List Char) : Option Nat :=
  let l := (cs.takeWhile Char.isAlpha).length
  if 3 ≤ l then (afterLettersLen (cs.drop l)).map (l + ·) else none

/-- re.search of PERIOD_HEADER_REGEX: first position admitting a match,
scanning left to right; returns position and matched length. -/
def regexSearchAux : List Char → Nat → Option (Nat × Nat)
  | [], _ => none
  | c :: t, pos =>
    match startMatchLen (c :: t) with
    | some l => some (pos, l)
    | none => regexSearchAux t (pos + 1)

/-- re.search of PERIOD_HEADER_REGEX over a character list. -/
def regexSearch (cs : List Char) : Option (Nat × Nat) := regexSearchAux cs 0

/-- The helper _is_period_header (lines 61 to 63): normalize, then test the
pattern anywhere in the text. -/
def isPeriodHeader (h : String) : Bool :=
  let c := normalizeHeaderText h
  decide (c ≠ "") && (regexSearch c.data).isSome

/-- Short period name: the matched substring of the pattern, normalized;
falls back to the whole normalized header when there is no match
(lines 175 to 176). -/
def periodShortName (h : String) : String :=
  match regexSearch h.data with
  | some pl => normalizeHeaderText ⟨(h.data.drop pl.1).take pl.2⟩
  | none => normalizeHeaderText h

/-! ### Period Detector (detect_periods, lines 117 to 196). -/

/-- One detected pay period: entries of self.periods.  display_name is
Option because the fallback detection inside load_employee_data
(line 318) creates periods without that key. -/
structure PeriodCol where
  name : String
  display_name : Option String
  column_index : Nat
deriving DecidableEq, Repr

/-- Lowercased join of the nonempty cells of a row with single spaces: the
text in which detect_periods looks for the phrase per hour (line 133). -/
def joinedLower (row : List String) : String :=
  ⟨List.intercalate [' '] ((row.filter (fun c => decide (c ≠ ""))).map (fun c => (pyLower c).data))⟩

/-- Whether a row is recognised as the explicit header row. -/
def hasPerHour (row : List String) : Bool := substrS "per hour" (joinedLower row)

/-- Merge of the two-line header (lines 153 to 164): cell-by-cell join of
the previous row and the header row, each nonempty cell stripped, the join
normalized. -/
def mergedHeaders (prev : Option (List String)) (cur : List String) : List String :=
  let prevLen := match prev with | some p => p.length | none => 0
  (List.range (max prevLen cur.length)).map fun j =>
    let parts :=
      (match prev with
       | some p => if p.getD j "" ≠ "" then [(pyStrip (p.getD j "")).data] else []
       | none => []) ++
      (if cur.getD j "" ≠ "" then [(pyStrip (cur.getD j "")).data] else [])
    normalizeHeaderText ⟨List.intercalate [' '] parts⟩

/-- Periods detected from merged headers (lines 172 to 183). -/
def detectPeriodsFromHeaders (headers : List String) : List PeriodCol :=
  headers.enum.filterMap fun ih =>
    if isPeriodHeader ih.2 then
      some { name := periodShortName ih.2
             display_name := some (normalizeHeaderText ih.2)
             column_index := ih.1 }
    else none

/-- Outcome of detect_periods: the returned boolean and the resulting
self.periods list. -/
structure DetectResult where
  ok : Bool
  periods : List PeriodCol
deriving DecidableEq, Repr

/-- DynamicPayrollProcessor.detect_periods (lines 117 to 196) on the parsed
rows of the CSV.  All four text encodings decode the same cell values for
the inputs considered here, so the encoding retry loop is modelled as a
single pass whose failure repeats identically.  The header row is the first
row whose joined lowercase text contains the phrase per hour; when no such
row exists the source falls into the fallback scan at line 140, which
evaluates the undefined name period_pattern and therefore raises NameError
as soon as it meets a nonempty cell: only UnicodeDecodeError is caught by
the enclosing handler, so the exception escapes detect_periods.  With no
header row and no nonempty cell the loop exhausts all encodings and the
function returns False with an empty period list. -/
def detect_periods (rows : List (List String)) : Except String DetectResult :=
  match rows.findIdx? hasPerHour with
  | some i =>
    let headers := mergedHeaders (if i > 0 then some (rows.getD (i - 1) []) else none)
      (rows.getD i [])
    let ps := detectPeriodsFromHeaders headers
    if ps.isEmpty then Except.ok { ok := false, periods := [] }
    else Except.ok { ok := true, periods := ps }
  | none =>
    if rows.any (fun row => row.any (fun c => decide (c ≠ ""))) then
      Except.error "NameError: name period_pattern is not defined"
    else Except.ok { ok := false, periods := [] }

/-! ### Employee ledger entry (the dict built in load_employee_data,
lines 346 to 365, plus the net_amount_earned key set at line 428). -/

/-- Per period data stored under employee periods (line 383). -/
structure PeriodData where
  hours : ℚ
  amount : ℚ
  raw : String
deriving DecidableEq, Repr

/-- One employee ledger entry: the keys of the employee dict of
load_employee_data.  net_amount_earned is Option because the key is absent
until a net-amount-earned column is seen. -/
structure Employee where
  seq : String
  account_no : String
  name : String
  hourly_rate : ℚ
  email : String
  work_email : String
  personal_email : String
  periods : List (String × PeriodData)
  total_gross : ℚ
  tax_rate : ℚ
  withholding_rate : ℚ
  withholding_amount : ℚ
  p_tax_rate : ℚ
  percent_tax : ℚ
  adjustment_hours : ℚ
  adjustment_amount : ℚ
  total_tax_deductions : ℚ
  net_amount_received : ℚ
  net_amount_earned : Option ℚ
deriving DecidableEq, Repr

/-- The initial employee dict of lines 346 to 365 before any column is read
(identity fields are filled in separately by initEmployee). -/
def emptyEmployee : Employee where
  seq := ""
  account_no := ""
  name := ""
  hourly_rate := 0
  email := ""
  work_email := ""
  personal_email := ""
  periods := []
  total_gross := 0
  tax_rate := 0
  withholding_rate := 0
  withholding_amount := 0
  p_tax_rate := 0
  percent_tax := 0
  adjustment_hours := 0
  adjustment_amount := 0
  total_tax_deductions := 0
  net_amount_received := 0
  net_amount_earned := none

/-! ### Header Reconciler: keyword lookup over the merged headers
(load_employee_data, lines 297 to 336). -/

/-- Python dict update on an association list: an existing key keeps its
position and gets the new value, a new key is appended. -/
def pyDictSet {α : Type} (m : List (String × α)) (k : String) (v : α) : List (String × α) :=
  if m.any (fun kv => kv.1 == k) then m.map (fun kv => if kv.1 == k then (k, v) else kv)
  else m ++ [(k, v)]

/-- The dict comprehension over enumerate(headers) with key f(header):
on duplicate keys the later column index wins, while the key keeps the
position of its first occurrence (Python dict semantics). -/
def headerDict (headers : List String) (f : String → String) : List (String × Nat) :=
  headers.enum.foldl (fun m ih => pyDictSet m (f ih.2) ih.1) []

/-- The projection _norm of line 300: lowercase and strip every character
that is not a lowercase letter or digit. -/
def normKey (s : String) : String :=
  ⟨(s.data.map Char.toLower).filter (fun c => c.isLower || c.isDigit)⟩

/-- find_col (lines 305 to 311): index of the first normalized header that
contains all normalized parts, in dict iteration order. -/
def findColIn (headers : List String) (parts : List String) : Option Nat :=
  ((headerDict headers normKey).find?
    (fun kv => parts.all (fun p => substrS (normKey p) kv.1))).map (fun kv => kv.2)

/-- Python or on two optional column indices: an index of 0 is falsy, so it
is discarded just like None (used by the idx_adj_amount chain at
lines 406 to 409). -/
def orPy (a b : Option Nat) : Option Nat :=
  match a with
  | some n => if n = 0 then b else some n
  | none => b

/-- Context in which one data row is processed: the merged headers of the
CSV and the detected period list (self.periods). -/
structure RowCtx where
  headers : List String
  periods : List PeriodCol
deriving DecidableEq, Repr

/-- seq_idx (line 321 with the fallback of line 327): first lowercased
header containing seq or sequence, else column 0. -/
def seqIdxOf (ctx : RowCtx) : Nat :=
  (((headerDict ctx.headers pyLower).find?
    (fun kv => substrS "seq" kv.1 || substrS "sequence" kv.1)).map (fun kv => kv.2)).getD 0

/-- name_idx (line 322 with the fallback of line 329). -/
def nameIdxOf (ctx : RowCtx) : Nat :=
  (((headerDict ctx.headers pyLower).find?
    (fun kv => substrS "name" kv.1)).map (fun kv => kv.2)).getD
    (if ctx.headers.length > 2 then 2 else 1)

/-- rate_idx (line 323): first lowercased header containing per hour, hour
or rate; may be absent. -/
def rateIdxOf (ctx : RowCtx) : Option Nat :=
  ((headerDict ctx.headers pyLower).find?
    (fun kv => substrS "per hour" kv.1 || substrS "hour" kv.1 || substrS "rate" kv.1)).map
    (fun kv => kv.2)

def idxEmailOf (ctx : RowCtx) : Option Nat := findColIn ctx.headers ["email"]
def idxWorkEmailOf (ctx : RowCtx) : Option Nat := findColIn ctx.headers ["work", "email"]
def idxPersonalEmailOf (ctx : RowCtx) : Option Nat := findColIn ctx.headers ["personal", "email"]
def idxAmtEarnedOf (ctx : RowCtx) : Option Nat := findColIn ctx.headers ["amount", "earned"]
def idxNetAmtOf (ctx : RowCtx) : Option Nat := findColIn ctx.headers ["net", "amount", "earned"]
def idxTaxRateOf (ctx : RowCtx) : Option Nat := findColIn ctx.headers ["w", "tax", "rate"]
def idxWhTaxOf (ctx : RowCtx) : Option Nat := findColIn ctx.headers ["holding", "tax"]
def idxPRateOf (ctx : RowCtx) : Option Nat := findColIn ctx.headers ["p", "tax", "rate"]
def idxPercentOf (ctx : RowCtx) : Option Nat := findColIn ctx.headers ["percent", "tax"]
def idxTotalDedOf (ctx : RowCtx) : Option Nat := findColIn ctx.headers ["total", "tax", "deduct"]
def idxNetRecvOf (ctx : RowCtx) : Option Nat := findColIn ctx.headers ["net", "amount", "received"]
def idxAdjHoursOf (ctx : RowCtx) : Option Nat := findColIn ctx.headers ["adjust", "hour"]

/-- idx_adj_amount (lines 406 to 409): a Python or chain of four lookups. -/
def idxAdjAmountOf (ctx : RowCtx) : Option Nat :=
  orPy (findColIn ctx.headers ["adjust", "amount"])
    (orPy (findColIn ctx.headers ["adjust", "add", "tax"])
      (orPy (findColIn ctx.headers ["addl", "tax"])
        (findColIn ctx.headers ["adjustment", "tax"])))

/-- The guard pattern idx is not None and idx < len(row) and row[idx].strip()
returning the raw cell when it passes. -/
def presentRaw (idx : Option Nat) (row : List String) : Option String :=
  match idx with
  | some i => if i < row.length ∧ pyStrip (row.getD i "") ≠ "" then some (row.getD i "") else none
  | none => none

/-! ### Employee Ledger Builder: one data row
(load_employee_data, lines 338 to 486).

The summary, tax, adjustment and primary-email block of lines 393 to 480 is
indented inside the body of the per-period loop of line 376, under the
bounds check of line 378, so it executes once per detected period whose
column index is inside the row and never executes when no period qualifies.
The model reproduces that placement: rowSummaryBlock is invoked from
periodStep and not from processRow directly. -/

/-- adj_amount_from_csv (lines 416 to 418). -/
def adjCsvOf (ctx : RowCtx) (row : List String) : Option ℚ :=
  (presentRaw (idxAdjAmountOf ctx) row).map (fun c => safe_float c 0)

/-- net_amt_from_csv (lines 425 to 427): None when the column is absent or
blank, and also when the cell does not parse. -/
def netCsvOf (ctx : RowCtx) (row : List String) : Option ℚ :=
  (presentRaw (idxNetAmtOf ctx) row).bind safeFloatCore

/-- The amount-earned override cell (lines 420 to 422). -/
def overrideRawOf (ctx : RowCtx) (row : List String) : Option String :=
  presentRaw (idxAmtEarnedOf ctx) row

/-- Parsed value of the amount-earned override, when present and parseable. -/
def overrideValOf (ctx : RowCtx) (row : List String) : Option ℚ :=
  (overrideRawOf ctx row).bind safeFloatCore

/-- Lines 412 to 413: set adjustment hours from the CSV when present. -/
def adjHoursStep (ctx : RowCtx) (row : List String) (e : Employee) : Employee :=
  { e with adjustment_hours :=
      match presentRaw (idxAdjHoursOf ctx) row with
      | some c => safe_float c 0
      | none => e.adjustment_hours }

/-- Lines 420 to 422: AMOUNT EARNED overrides the accumulated gross; the
default of the parse is the current gross, so an unparseable cell keeps it. -/
def grossOverrideStep (ctx : RowCtx) (row : List String) (e : Employee) : Employee :=
  { e with total_gross :=
      match overrideRawOf ctx row with
      | some c => (safeFloatCore c).getD e.total_gross
      | none => e.total_gross }

/-- Lines 425 to 428: NET AMOUNT EARNED is stored separately. -/
def netStep (ctx : RowCtx) (row : List String) (e : Employee) : Employee :=
  { e with net_amount_earned :=
      match presentRaw (idxNetAmtOf ctx) row with
      | some c => safeFloatCore c
      | none => e.net_amount_earned }

/-- Lines 430 to 437: explicit adjustment amount wins, else hours times rate
(the else 0 branch of line 437 coincides with a zero product). -/
def adjBaseStep (ctx : RowCtx) (row : List String) (e : Employee) : Employee :=
  let calc_adj := e.adjustment_hours * e.hourly_rate
  { e with adjustment_amount :=
      (adjCsvOf ctx row).getD (if calc_adj ≠ 0 then calc_adj else 0) }

/-- Lines 439 to 446: when the explicit adjustment amount is falsy (absent,
or parsed as exactly zero) and a net amount earned is present, infer the
adjustment as gross minus net whenever the difference exceeds 1e-6 in
absolute value. -/
def adjInferStep (ctx : RowCtx) (row : List String) (e : Employee) : Employee :=
  { e with adjustment_amount :=
      match netCsvOf ctx row with
      | some n =>
        if (adjCsvOf ctx row = none ∨ adjCsvOf ctx row = some 0) ∧
            pyAbs (e.total_gross - n) > 1 / 1000000 then
          e.total_gross - n
        else e.adjustment_amount
      | none => e.adjustment_amount }

/-- Lines 449 to 450: W/ TAX RATE. -/
def taxRateStep (ctx : RowCtx) (row : List String) (e : Employee) : Employee :=
  { e with tax_rate :=
      match presentRaw (idxTaxRateOf ctx) row with
      | some c => parse_percent c e.tax_rate
      | none => e.tax_rate }

/-- Lines 452 to 457: W/HOLDING TAX is a rate when the cell contains a
percent sign, else an absolute amount. -/
def whTaxStep (ctx : RowCtx) (row : List String) (e : Employee) : Employee :=
  { e with
    withholding_rate :=
      match presentRaw (idxWhTaxOf ctx) row with
      | some c =>
        if substrS "%" (pyStrip c) then parse_percent (pyStrip c) e.withholding_rate
        else e.withholding_rate
      | none => e.withholding_rate
    withholding_amount :=
      match presentRaw (idxWhTaxOf ctx) row with
      | some c =>
        if substrS "%" (pyStrip c) then e.withholding_amount
        else safe_float (pyStrip c) e.withholding_amount
      | none => e.withholding_amount }

/-- Lines 459 to 460: P-TAX RATE. -/
def pTaxRateStep (ctx : RowCtx) (row : List String) (e : Employee) : Employee :=
  { e with p_tax_rate :=
      match presentRaw (idxPRateOf ctx) row with
      | some c => parse_percent c e.p_tax_rate
      | none => e.p_tax_rate }

/-- Lines 462 to 463: PERCENT. TAX. -/
def percentTaxStep (ctx : RowCtx) (row : List String) (e : Employee) : Employee :=
  { e with percent_tax :=
      match presentRaw (idxPercentOf ctx) row with
      | some c => safe_float c e.percent_tax
      | none => e.percent_tax }

/-- Lines 465 to 466: TOTAL TAX DEDUCTIONS. -/
def totalDedStep (ctx : RowCtx) (row : List String) (e : Employee) : Employee :=
  { e with total_tax_deductions :=
      match presentRaw (idxTotalDedOf ctx) row with
      | some c => safe_float c e.total_tax_deductions
      | none => e.total_tax_deductions }

/-- Lines 468 to 469: NET AMOUNT RECEIVED. -/
def netRecvStep (ctx : RowCtx) (row : List String) (e : Employee) : Employee :=
  { e with net_amount_received :=
      match presentRaw (idxNetRecvOf ctx) row with
      | some c => safe_float c e.net_amount_received
      | none => e.net_amount_received }

/-- Lines 471 to 480: the primary email is the first nonempty of email,
work email and personal email; when found it is written to the email field
and forwarded to the persistent store (the second component records the
forwarded address). -/
def primaryEmailStep (st : Employee × Option String) : Employee × Option String :=
  let e := st.1
  let primary :=
    if e.email ≠ "" then some e.email
    else if e.work_email ≠ "" then some e.work_email
    else if e.personal_email ≠ "" then some e.personal_email
    else none
  ({ e with email := primary.getD e.email }, if primary.isSome then primary else st.2)

/-- The whole misindented block of lines 393 to 480, in source order. -/
def rowSummaryBlock (ctx : RowCtx) (row : List String) (st : Employee × Option String) :
    Employee × Option String :=
  primaryEmailStep
    (netRecvStep ctx row
      (totalDedStep ctx row
        (percentTaxStep ctx row
          (pTaxRateStep ctx row
            (whTaxStep ctx row
              (taxRateStep ctx row
                (adjInferStep ctx row
                  (adjBaseStep ctx row
                    (netStep ctx row
                      (grossOverrideStep ctx row
                        (adjHoursStep ctx row st.1)))))))))), st.2)

/-- Lines 379 to 391: read the period cell, convert to hours, multiply by
the hourly rate (zero when the rate is zero, by the Python truthiness test
of line 382), store the period record under the canonical name and, when
different and nonempty, under the display name, and accumulate the gross. -/
def periodExtract (ctx : RowCtx) (row : List String) (e : Employee) (p : PeriodCol) : Employee :=
  let raw := pyStrip (row.getD p.column_index "")
  let hours := safe_float raw 0
  let amount := if e.hourly_rate ≠ 0 then hours * e.hourly_rate else 0
  let pd : PeriodData := { hours := hours, amount := amount, raw := raw }
  let canonical :=
    if p.name ≠ "" then p.name else normalizeHeaderText (ctx.headers.getD p.column_index "")
  let periods1 := pyDictSet e.periods canonical pd
  let periods2 :=
    match p.display_name with
    | some dn => if dn ≠ "" ∧ dn ≠ canonical then pyDictSet periods1 dn pd else periods1
    | none => periods1
  { e with periods := periods2, total_gross := e.total_gross + amount }

/-- One iteration of the for period in self.periods loop (line 376): when
the period column is inside the row, extract the period and then run the
misindented summary block; otherwise do nothing. -/
def periodStep (ctx : RowCtx) (row : List String) (st : Employee × Option String)
    (p : PeriodCol) : Employee × Option String :=
  if p.column_index < row.length then
    rowSummaryBlock ctx row (periodExtract ctx row st.1 p, st.2)
  else st

/-- Lines 346 to 373: the freshly initialised employee dict with identity
fields and the three raw email columns filled in. -/
def initEmployee (ctx : RowCtx) (row : List String) : Employee :=
  let base := { emptyEmployee with
    seq := pyStrip (row.getD (seqIdxOf ctx) "")
    account_no := if row.length > 1 then pyStrip (row.getD 1 "") else ""
    name := if nameIdxOf ctx < row.length then pyStrip (row.getD (nameIdxOf ctx) "") else ""
    hourly_rate :=
      match rateIdxOf ctx with
      | some ri => if ri < row.length then safe_float (row.getD ri "") 0 else 0
      | none => 0 }
  let base := { base with
    email :=
      match presentRaw (idxEmailOf ctx) row with
      | some c => pyStrip c
      | none => base.email }
  let base := { base with
    work_email :=
      match presentRaw (idxWorkEmailOf ctx) row with
      | some c => pyStrip c
      | none => base.work_email }
  { base with
    personal_email :=
      match presentRaw (idxPersonalEmailOf ctx) row with
      | some c => pyStrip c
      | none => base.personal_email }

/-- Processing of one accepted data row: the initial dict followed by the
per-period loop.  The second component is the email forwarded to the
persistent store by remember_employee_email, none when the call never
happened. -/
def processRow (ctx : RowCtx) (row : List String) : Employee × Option String :=
  ctx.periods.foldl (periodStep ctx row) (initEmployee ctx row, none)

/-- The row-validity gate of lines 339 to 343: the row is nonempty, the
sequence cell is inside the row and its stripped text is all digits. -/
def rowAccepted (ctx : RowCtx) (row : List String) : Bool :=
  !row.isEmpty && decide (seqIdxOf ctx < row.length) &&
    pyIsDigit (pyStrip (row.getD (seqIdxOf ctx) ""))

/-- The data-row loop of load_employee_data (lines 338 to 486): rows that
fail the gate are skipped and processing continues; every accepted row
appends one employee.  In the model row processing is total, so the
per-row exception handler of lines 484 to 486 has no error to catch. -/
def load_employee_data (ctx : RowCtx) : List (List String) → List Employee
  | [] => []
  | row :: rest =>
    if rowAccepted ctx row then (processRow ctx row).1 :: load_employee_data ctx rest
    else load_employee_data ctx rest

/-! ### Payroll Calculator (calculate_employee_payroll, lines 521 to 543). -/

/-- Result of calculate_employee_payroll. -/
structure PayrollResult where
  gross_pay : ℚ
  sub_total : ℚ
  w_tax : ℚ
  withholding : ℚ
  p_tax : ℚ
  total_deductions : ℚ
  net_pay : ℚ
deriving DecidableEq, Repr

/-- DynamicPayrollProcessor.calculate_employee_payroll (lines 521 to 543):
sub total is gross minus adjustment, the three deduction components are
computed from gross and the stored rates, net pay is sub total minus the
deduction total. -/
def calculate_employee_payroll (e : Employee) : PayrollResult :=
  let gross := e.total_gross
  let adj := e.adjustment_amount
  let sub_total := gross - adj
  let w_tax := gross * e.tax_rate
  let withholding := gross * e.withholding_rate
  let p_tax := gross * e.p_tax_rate
  let total_deductions := w_tax + withholding + p_tax
  { gross_pay := gross
    sub_total := sub_total
    w_tax := w_tax
    withholding := withholding
    p_tax := p_tax
    total_deductions := total_deductions
    net_pay := sub_total - total_deductions }

/-! ### Placement-aware payslip summary of generate_pdf_payslip
(lines 638 to 712): the numeric part of the ReportLab payslip. -/

/-- The split_amount helper of lines 699 to 704: both halves the amount,
15 puts it on the first date, any other placement puts it on the second. -/
def splitAmountPdf (amount : ℚ) (place : String) : ℚ × ℚ :=
  if place = "both" then (amount / 2, amount / 2)
  else if place = "15" then (amount, 0)
  else (0, amount)

/-- The figures of the PAYROLL SUMMARY table of generate_pdf_payslip. -/
structure PayslipSummary where
  gross : ℚ
  w_amount : ℚ
  p_amount : ℚ
  w_15 : ℚ
  w_30 : ℚ
  p_15 : ℚ
  p_30 : ℚ
  total_15 : ℚ
  total_30 : ℚ
  total_deductions : ℚ
  net_pay : ℚ
deriving DecidableEq, Repr

/-- Numeric content of generate_pdf_payslip (lines 638 to 712): the per
period salary total, the gross (total_gross, or the salary total when the
stored gross is zero, by the Python or of line 686), the withholding and
percent amounts with explicit absolute amounts taking precedence over rate
products (lines 689 to 695), the placement split and the totals. -/
def generate_pdf_payslip_summary (e : Employee) (withholding_placement : String) :
    PayslipSummary :=
  let total_salary := (e.periods.map (fun kv => kv.2.hours * e.hourly_rate)).sum
  let w_rate := e.withholding_rate
  let p_rate := e.p_tax_rate
  let gross := if e.total_gross ≠ 0 then e.total_gross else total_salary
  let w_amount := if e.withholding_amount = 0 ∧ w_rate ≠ 0 then gross * w_rate
    else e.withholding_amount
  let p_amount := if e.percent_tax = 0 ∧ p_rate ≠ 0 then gross * p_rate else e.percent_tax
  let wp := if withholding_placement = "" then "both" else withholding_placement
  let ws := splitAmountPdf w_amount wp
  let ps := splitAmountPdf p_amount wp
  let total_15 := ws.1 + ps.1
  let total_30 := ws.2 + ps.2
  let total_deductions := total_15 + total_30
  { gross := gross
    w_amount := w_amount
    p_amount := p_amount
    w_15 := ws.1
    w_30 := ws.2
    p_15 := ps.1
    p_30 := ps.2
    total_15 := total_15
    total_30 := total_30
    total_deductions := total_deductions
    net_pay := gross - total_deductions }

/-! ### Excel template filling (_excel_fill_template, lines 798 to 900). -/

/-- Python round to the nearest integer with ties to even, on the exact
rational value. -/
def roundHalfEven (x : ℚ) : ℤ :=
  let n := ⌊x⌋
  if x - n < 1 / 2 then n
  else if x - n > 1 / 2 then n + 1
  else if n % 2 = 0 then n else n + 1

/-- Python round(x, 2) on the exact rational value. -/
def round2 (x : ℚ) : ℚ := (roundHalfEven (x * 100) : ℚ) / 100

/-- Association-list lookup, as the dict get of line 854. -/
def lookupAssoc (m : List (String × PeriodData)) (k : String) : Option PeriodData :=
  (m.find? (fun kv => kv.1 == k)).map (fun kv => kv.2)

/-- The numeric cells written by _excel_fill_template. -/
structure ExcelFill where
  total_hours : ℚ
  sal_earned : ℚ
  sub_total : ℚ
  w_rate : ℚ
  p_rate : ℚ
  w_amt : ℚ
  p_amt : ℚ
  w_15 : ℚ
  w_30 : ℚ
  p_15 : ℚ
  p_30 : ℚ
  total_15 : ℚ
  total_30 : ℚ
  total_ded : ℚ
  net_pay : ℚ
deriving DecidableEq, Repr

/-- Numeric content of _excel_fill_template (lines 845 to 900): hours are
gathered from the processor period list through the employee period map,
salary earned is rate times hours rounded to cents, deduction amounts
prefer explicit absolute amounts over rounded rate products, missing rates
are back-derived from amounts for display, and the placement splits the
amounts before each sub-total is rounded to cents. -/
def excel_fill_template (periods : List PeriodCol) (e : Employee) (placement : String) :
    ExcelFill :=
  let entries0 := periods.filterMap
    (fun p => (lookupAssoc e.periods p.name).map (fun rec => (p.name, rec.hours)))
  let entries := if entries0.isEmpty then [("", (0 : ℚ))] else entries0
  let total_hours := (entries.map (fun kv => kv.2)).sum
  let rate := e.hourly_rate
  let adj_amt := e.adjustment_amount
  let sal_earned := round2 (rate * total_hours)
  let sub_total := round2 (sal_earned - adj_amt)
  let gross_for_tax := sal_earned
  let w_rate0 := if e.withholding_rate ≠ 0 then e.withholding_rate else e.tax_rate
  let p_rate0 := e.p_tax_rate
  let w_amt := if e.withholding_amount = 0 ∧ w_rate0 ≠ 0 then round2 (gross_for_tax * w_rate0)
    else e.withholding_amount
  let p_amt := if e.percent_tax = 0 ∧ p_rate0 ≠ 0 then round2 (gross_for_tax * p_rate0)
    else e.percent_tax
  let w_rate := if w_rate0 = 0 ∧ w_amt ≠ 0 ∧ gross_for_tax ≠ 0 then w_amt / gross_for_tax
    else w_rate0
  let p_rate := if p_rate0 = 0 ∧ p_amt ≠ 0 ∧ gross_for_tax ≠ 0 then p_amt / gross_for_tax
    else p_rate0
  let place := pyLower (if placement = "" then "both" else placement)
  let ws := if place = "15" then (w_amt, (0 : ℚ))
    else if place = "30" then ((0 : ℚ), w_amt)
    else (w_amt / 2, w_amt / 2)
  let ps := if place = "15" then (p_amt, (0 : ℚ))
    else if place = "30" then ((0 : ℚ), p_amt)
    else (p_amt / 2, p_amt / 2)
  let total_15 := round2 (ws.1 + ps.1)
  let total_30 := round2 (ws.2 + ps.2)
  let total_ded := round2 (total_15 + total_30)
  { total_hours := total_hours
    sal_earned := sal_earned
    sub_total := sub_total
    w_rate := w_rate
    p_rate := p_rate
    w_amt := w_amt
    p_amt := p_amt
    w_15 := ws.1
    w_30 := ws.2
    p_15 := ps.1
    p_30 := ps.2
    total_15 := total_15
    total_30 := total_30
    total_ded := total_ded
    net_pay := round2 (sub_total - total_ded) }

/-! ### Address Book (email_store.py). -/

/-- The helper _clean (email_store.py lines 24 to 28): strip and turn the
empty result into None. -/
def pyClean (s : String) : Option String :=
  let t := pyStrip s
  if t = "" then none else some t

/-- The helper _clean_lower, also _clean_email (lines 31 to 38). -/
def pyCleanLower (s : String) : Option String := (pyClean s).map pyLower

/-- Abstract state of the persistent store: the three unique-keyed lookup
maps of the email_addresses table (seq, account_no, name_key). -/
structure EmailStoreM where
  bySeq : String → Option String
  byAcct : String → Option String
  byName : String → Option String

/-- EmailStore.lookup (email_store.py lines 127 to 148): query by sequence
number, then account number, then normalized name, first hit wins. -/
def storeLookup (st : EmailStoreM) (seq account_no name : String) : Option String :=
  match (pyClean seq).bind st.bySeq with
  | some e => some e
  | none =>
    match (pyClean account_no).bind st.byAcct with
    | some e => some e
    | none => (pyCleanLower name).bind st.byName

/-- EmailStore.apply_to_employees (email_store.py lines 150 to 162): for
each entry whose email is blank after stripping, look the address up by
identity and fill it in; entries with a nonblank email are untouched.
Every element of the model list is an employee record, so the isinstance
guard of line 152 never skips. -/
def apply_to_employees (st : EmailStoreM) (emps : List Employee) : List Employee :=
  emps.map fun emp =>
    match pyCleanLower emp.email with
    | some _ => emp
    | none =>
      match storeLookup st emp.seq emp.account_no emp.name with
      | some e => { emp with email := e }
      | none => emp

/-! ### Concrete inputs used by the claim instances. -/

/-- Headers of a CSV whose header row mentions per hour but has no
period-like column, together with an AMOUNT EARNED column; zero periods
are detected. -/
def c2ctx : RowCtx :=
  { headers := ["Seq.", "NAME", "RATE per hour", "AMOUNT EARNED"], periods := [] }

def c2row : List String := ["1", "Bob", "20", "250"]

/-- The two detected periods of the standard two-period example. -/
def twoPeriods : List PeriodCol :=
  [{ name := "Jan 1-15", display_name := some "Jan 1-15", column_index := 3 },
   { name := "Jan 16-31", display_name := some "Jan 16-31", column_index := 4 }]

def c2bctx : RowCtx :=
  { headers := ["Seq.", "NAME", "RATE per hour", "Jan 1-15", "Jan 16-31"], periods := twoPeriods }

def c2brow : List String := ["1", "Bob", "20", "10", "5"]

def c2cctx : RowCtx :=
  { headers := ["Seq.", "NAME", "RATE per hour", "Jan 1-15", "Jan 16-31", "AMOUNT EARNED"]
    periods := twoPeriods }

def c2crow : List String := ["1", "Bob", "20", "10", "5", "250"]

/-- Headers with a resolvable W/ TAX RATE column and a work-email column,
but zero detected periods. -/
def c3ctx : RowCtx :=
  { headers := ["Seq.", "ACCOUNT", "NAME", "RATE per hour", "W/ TAX RATE", "WORK EMAIL"]
    periods := [] }

def c3row : List String := ["1", "AC-1", "Alice", "100", "10%", "alice@example.com"]

/-- A CSV whose rows never mention per hour and that has nonempty cells. -/
def c4rows : List (List String) := [["Seq.", "NAME", "Jan 1-15", "Jan 16-31"]]

/-- One period at column 4, an adjustment-hours column, an explicit
AMOUNT EARNED column and a NET AMOUNT EARNED column. -/
def c6ctx : RowCtx :=
  { headers := ["Seq.", "Account", "NAME", "RATE per hour", "Jan 1-15", "ADJUSTMENT HOURS",
      "AMOUNT EARNED", "NET AMOUNT EARNED"]
    periods := [{ name := "Jan 1-15", display_name := some "Jan 1-15", column_index := 4 }] }

def c6row : List String := ["1", "A", "Bob", "10", "0", "2", "200", "150"]

/-- The ledger entry of the C1 instance. -/
def c1emp : Employee :=
  { emptyEmployee with
    total_gross := 1000, adjustment_amount := 100,
    tax_rate := 0.1, withholding_rate := 0.05, p_tax_rate := 0.02 }

/-- A ledger entry with an absolute withholding amount of 0.0098 and no
rates: the Excel split rounds each half to cents. -/
def c7emp : Employee := { emptyEmployee with withholding_amount := 0.0098 }

/-- The hours parsed from the cell of one period column. -/
def periodHours (row : List String) (p : PeriodCol) : ℚ :=
  safe_float (pyStrip (row.getD p.column_index "")) 0

/-- A ledger entry with one period of 10 hours at rate 10, an absolute
withholding amount of 7 and an absolute percent tax of 3. -/
def c5emp : Employee :=
  { emptyEmployee with
    hourly_rate := 10, withholding_amount := 7, percent_tax := 3
    periods := [("Jan 1-15", { hours := 10, amount := 100, raw := "10" })] }

def c5periods : List PeriodCol :=
  [{ name := "Jan 1-15", display_name := some "Jan 1-15", column_index := 3 }]

/-- Context with an explicit adjustment-amount column and a net column. -/
def c6wctx1 : RowCtx :=
  { headers := ["Seq.", "ADJUST AMOUNT", "NET AMOUNT EARNED"], periods := [] }

/-- Context with no adjustment or net columns at all. -/
def c6wctx2 : RowCtx := { headers := ["Seq."], periods := [] }

/-- Context with only a net-amount-earned column. -/
def c6wctx3 : RowCtx := { headers := ["Seq.", "NET AMOUNT EARNED"], periods := [] }

/-- An employee state entering the adjustment steps with hours 2, rate 10
and gross 200. -/
def c6emp0 : Employee :=
  { emptyEmployee with adjustment_hours := 2, hourly_rate := 10, total_gross := 200 }

/-! ### Supporting lemmas

Projection lemmas: which fields each step of the row pipeline leaves
unchanged, and the value of the fields it writes. -/

theorem adjHoursStep_gross (ctx row e) : (adjHoursStep ctx row e).total_gross = e.total_gross :=
  rfl

theorem adjHoursStep_rate (ctx row e) : (adjHoursStep ctx row e).hourly_rate = e.hourly_rate :=
  rfl

theorem grossOverrideStep_rate (ctx row e) :
    (grossOverrideStep ctx row e).hourly_rate = e.hourly_rate := rfl

theorem grossOverrideStep_gross (ctx row e) : (grossOverrideStep ctx row e).total_gross =
    match overrideRawOf ctx row with
    | some c => (safeFloatCore c).getD e.total_gross
    | none => e.total_gross := rfl

theorem netStep_gross (ctx row e) : (netStep ctx row e).total_gross = e.total_gross := rfl

theorem netStep_rate (ctx row e) : (netStep ctx row e).hourly_rate = e.hourly_rate := rfl

theorem adjBaseStep_gross (ctx row e) : (adjBaseStep ctx row e).total_gross = e.total_gross := rfl

theorem adjBaseStep_rate (ctx row e) : (adjBaseStep ctx row e).hourly_rate = e.hourly_rate := rfl

theorem adjInferStep_gross (ctx row e) : (adjInferStep ctx row e).total_gross = e.total_gross :=
  rfl

theorem adjInferStep_rate (ctx row e) : (adjInferStep ctx row e).hourly_rate = e.hourly_rate :=
  rfl

theorem taxRateStep_gross (ctx row e) : (taxRateStep ctx row e).total_gross = e.total_gross := rfl

theorem taxRateStep_rate (ctx row e) : (taxRateStep ctx row e).hourly_rate = e.hourly_rate := rfl

theorem whTaxStep_gross (ctx row e) : (whTaxStep ctx row e).total_gross = e.total_gross := rfl

theorem whTaxStep_rate (ctx row e) : (whTaxStep ctx row e).hourly_rate = e.hourly_rate := rfl

theorem pTaxRateStep_gross (ctx row e) : (pTaxRateStep ctx row e).total_gross = e.total_gross :=
  rfl

theorem pTaxRateStep_rate (ctx row e) : (pTaxRateStep ctx row e).hourly_rate = e.hourly_rate :=
  rfl

theorem percentTaxStep_gross (ctx row e) :
    (percentTaxStep ctx row e).total_gross = e.total_gross := rfl

theorem percentTaxStep_rate (ctx row e) :
    (percentTaxStep ctx row e).hourly_rate = e.hourly_rate := rfl

theorem totalDedStep_gross (ctx row e) : (totalDedStep ctx row e).total_gross = e.total_gross :=
  rfl

theorem totalDedStep_rate (ctx row e) : (totalDedStep ctx row e).hourly_rate = e.hourly_rate :=
  rfl

theorem netRecvStep_gross (ctx row e) : (netRecvStep ctx row e).total_gross = e.total_gross := rfl

theorem netRecvStep_rate (ctx row e) : (netRecvStep ctx row e).hourly_rate = e.hourly_rate := rfl

theorem primaryEmailStep_gross (st) : ((primaryEmailStep st).1).total_gross = st.1.total_gross :=
  rfl

theorem primaryEmailStep_rate (st) : ((primaryEmailStep st).1).hourly_rate = st.1.hourly_rate :=
  rfl

/-- The only write to total_gross inside the summary block is the
amount-earned override. -/
theorem rowSummaryBlock_gross (ctx row st) :
    ((rowSummaryBlock ctx row st).1).total_gross =
      match overrideRawOf ctx row with
      | some c => (safeFloatCore c).getD st.1.total_gross
      | none => st.1.total_gross := by
  simp only [rowSummaryBlock, primaryEmailStep_gross, netRecvStep_gross, totalDedStep_gross,
    percentTaxStep_gross, pTaxRateStep_gross, whTaxStep_gross, taxRateStep_gross,
    adjInferStep_gross, adjBaseStep_gross, netStep_gross, grossOverrideStep_gross,
    adjHoursStep_gross]

theorem rowSummaryBlock_rate (ctx row st) :
    ((rowSummaryBlock ctx row st).1).hourly_rate = st.1.hourly_rate := by
  simp only [rowSummaryBlock, primaryEmailStep_rate, netRecvStep_rate, totalDedStep_rate,
    percentTaxStep_rate, pTaxRateStep_rate, whTaxStep_rate, taxRateStep_rate,
    adjInferStep_rate, adjBaseStep_rate, netStep_rate, grossOverrideStep_rate,
    adjHoursStep_rate]

theorem periodExtract_gross (ctx row e p) :
    (periodExtract ctx row e p).total_gross
      = e.total_gross + (if e.hourly_rate ≠ 0 then periodHours row p * e.hourly_rate else 0) :=
  rfl

theorem periodExtract_rate (ctx row e p) :
    (periodExtract ctx row e p).hourly_rate = e.hourly_rate := rfl

/-- The truthiness guard of the amount computation is arithmetically
invisible: a zero rate gives a zero product. -/
theorem amount_ite (h r : ℚ) : (if r ≠ 0 then h * r else 0) = h * r := by
  by_cases hr : r = 0 <;> simp [hr]

theorem periodStep_rate (ctx row st p) :
    ((periodStep ctx row st p).1).hourly_rate = st.1.hourly_rate := by
  unfold periodStep; split
  · rw [rowSummaryBlock_rate]; exact periodExtract_rate ctx row st.1 p
  · rfl

theorem periodStep_gross (ctx row) (hov : overrideValOf ctx row = none) (st p) :
    ((periodStep ctx row st p).1).total_gross
      = st.1.total_gross
        + (if p.column_index < row.length then periodHours row p * st.1.hourly_rate else 0) := by
  unfold periodStep; split
  · rename_i h
    rw [rowSummaryBlock_gross]
    rcases hr : overrideRawOf ctx row with _ | c
    · simp only [hr, periodExtract_gross, amount_ite, if_pos h]
    · have hc : safeFloatCore c = none := by
        have h2 := hov
        unfold overrideValOf at h2
        rw [hr] at h2
        simpa using h2
      simp only [hr, hc, Option.getD_none, periodExtract_gross, amount_ite, if_pos h]
  · rename_i h
    simp [h]

theorem foldPeriods_skip (ctx row) :
    ∀ (ps : List PeriodCol) (st), (∀ p ∈ ps, ¬ p.column_index < row.length) →
      ps.foldl (periodStep ctx row) st = st := by
  intro ps
  induction ps with
  | nil => intro st _; rfl
  | cons p ps ih =>
    intro st h
    rw [List.foldl_cons, show periodStep ctx row st p = st from by
      unfold periodStep; rw [if_neg (h p (by simp))]]
    exact ih st (fun q hq => h q (by simp [hq]))

/-- Accumulation of total_gross over the period loop when no amount-earned
override value is available: gross grows by hours times rate for each
in-range period. -/
theorem foldPeriods_gross_noOverride (ctx row) (hov : overrideValOf ctx row = none) :
    ∀ (ps : List PeriodCol) (st), ((ps.foldl (periodStep ctx row) st).1).total_gross
      = st.1.total_gross
        + ((ps.filter (fun p => decide (p.column_index < row.length))).map
            (fun p => periodHours row p * st.1.hourly_rate)).sum := by
  intro ps
  induction ps with
  | nil => intro st; simp
  | cons p ps ih =>
    intro st
    rw [List.foldl_cons, ih (periodStep ctx row st p)]
    simp only [periodStep_rate, periodStep_gross ctx row hov st p, List.filter_cons]
    by_cases hp : p.column_index < row.length
    · simp [hp, add_assoc]
    · simp [hp]

/-- When the amount-earned override parses, the last in-range period
iteration overwrites total_gross with it, so any row with at least one
in-range period ends with the override value. -/
theorem foldPeriods_gross_override (ctx row c v)
    (hc : overrideRawOf ctx row = some c) (hv : safeFloatCore c = some v) :
    ∀ (ps : List PeriodCol) (st),
      ps.filter (fun p => decide (p.column_index < row.length)) ≠ [] →
      ((ps.foldl (periodStep ctx row) st).1).total_gross = v := by
  intro ps
  induction ps with
  | nil => intro st h; simp at h
  | cons p ps ih =>
    intro st hne
    rw [List.foldl_cons]
    by_cases hp : p.column_index < row.length
    · by_cases hf : ps.filter (fun p => decide (p.column_index < row.length)) = []
      · rw [foldPeriods_skip ctx row ps _ ?later]
        case later =>
          intro q hq
          have := List.filter_eq_nil_iff.mp hf q hq
          simpa using this
        show ((periodStep ctx row st p).1).total_gross = v
        unfold periodStep
        rw [if_pos hp, rowSummaryBlock_gross, hc]
        simp only [hv, Option.getD_some]
      · exact ih (periodStep ctx row st p) hf
    · rw [show periodStep ctx row st p = st from by unfold periodStep; rw [if_neg hp]]
      refine ih st ?_
      simpa [List.filter_cons, hp] using hne

/-- Value written by adjBaseStep: the explicit amount when parsed from the
CSV, else hours times rate. -/
theorem adjBaseStep_adjustment (ctx row e) :
    (adjBaseStep ctx row e).adjustment_amount
      = (adjCsvOf ctx row).getD (e.adjustment_hours * e.hourly_rate) := by
  show (adjCsvOf ctx row).getD
      (if e.adjustment_hours * e.hourly_rate ≠ 0 then e.adjustment_hours * e.hourly_rate else 0)
    = (adjCsvOf ctx row).getD (e.adjustment_hours * e.hourly_rate)
  by_cases h : e.adjustment_hours * e.hourly_rate = 0 <;> simp [h]

/-- Value written by adjInferStep. -/
theorem adjInferStep_adjustment (ctx row e) :
    (adjInferStep ctx row e).adjustment_amount
      = match netCsvOf ctx row with
        | some n =>
          if (adjCsvOf ctx row = none ∨ adjCsvOf ctx row = some 0) ∧
              pyAbs (e.total_gross - n) > 1 / 1000000 then e.total_gross - n
          else e.adjustment_amount
        | none => e.adjustment_amount := rfl

theorem adjBaseStep_hours (ctx row e) :
    (adjBaseStep ctx row e).adjustment_hours = e.adjustment_hours := rfl

/-- The two halves of a split always sum back to the split amounts. -/
theorem split_sum_comb (a b : ℚ) (p : String) :
    (splitAmountPdf a p).1 + (splitAmountPdf b p).1
      + ((splitAmountPdf a p).2 + (splitAmountPdf b p).2) = a + b := by
  unfold splitAmountPdf
  split_ifs <;> (simp only []; ring)

theorem pdf_total_deductions (e : Employee) (wp : String) :
    (generate_pdf_payslip_summary e wp).total_deductions
      = (generate_pdf_payslip_summary e wp).w_amount
        + (generate_pdf_payslip_summary e wp).p_amount := by
  simp only [generate_pdf_payslip_summary]
  exact split_sum_comb _ _ _

theorem pdf_net_pay_eq (e : Employee) (wp : String) :
    (generate_pdf_payslip_summary e wp).net_pay
      = (generate_pdf_payslip_summary e wp).gross
        - (generate_pdf_payslip_summary e wp).total_deductions := rfl

/-- The deduction fields of the Excel filling, written through the record
projections. -/
theorem excel_w_amt_eq (periods : List PeriodCol) (e : Employee) (wp : String) :
    (excel_fill_template periods e wp).w_amt
      = if e.withholding_amount = 0
            ∧ (if e.withholding_rate ≠ 0 then e.withholding_rate else e.tax_rate) ≠ 0
        then round2 ((excel_fill_template periods e wp).sal_earned
              * (if e.withholding_rate ≠ 0 then e.withholding_rate else e.tax_rate))
        else e.withholding_amount := rfl

theorem excel_w_rate_eq (periods : List PeriodCol) (e : Employee) (wp : String) :
    (excel_fill_template periods e wp).w_rate
      = if (if e.withholding_rate ≠ 0 then e.withholding_rate else e.tax_rate) = 0
            ∧ (excel_fill_template periods e wp).w_amt ≠ 0
            ∧ (excel_fill_template periods e wp).sal_earned ≠ 0
        then (excel_fill_template periods e wp).w_amt
              / (excel_fill_template periods e wp).sal_earned
        else (if e.withholding_rate ≠ 0 then e.withholding_rate else e.tax_rate) := rfl

theorem excel_p_amt_eq (periods : List PeriodCol) (e : Employee) (wp : String) :
    (excel_fill_template periods e wp).p_amt
      = if e.percent_tax = 0 ∧ e.p_tax_rate ≠ 0
        then round2 ((excel_fill_template periods e wp).sal_earned * e.p_tax_rate)
        else e.percent_tax := rfl

theorem excel_p_rate_eq (periods : List PeriodCol) (e : Employee) (wp : String) :
    (excel_fill_template periods e wp).p_rate
      = if e.p_tax_rate = 0
            ∧ (excel_fill_template periods e wp).p_amt ≠ 0
            ∧ (excel_fill_template periods e wp).sal_earned ≠ 0
        then (excel_fill_template periods e wp).p_amt
              / (excel_fill_template periods e wp).sal_earned
        else e.p_tax_rate := rfl

/-! ### Claim theorems -/

/-- C1: for every ledger entry, calculate_employee_payroll returns
sub_total equal to gross minus adjustment, total_deductions equal to the
sum of the three per-tax-kind components, and net_pay equal to sub_total
minus total_deductions; the entry with gross 1000, adjustment 100,
tax rate 0.1, withholding rate 0.05 and p-tax rate 0.02 yields
sub_total 900, total_deductions 170 and net_pay 730. -/
theorem C1_payroll_computation (e : Employee) :
    (calculate_employee_payroll e).sub_total = e.total_gross - e.adjustment_amount
    ∧ (calculate_employee_payroll e).total_deductions
        = (calculate_employee_payroll e).w_tax + (calculate_employee_payroll e).withholding
          + (calculate_employee_payroll e).p_tax
    ∧ (calculate_employee_payroll e).net_pay
        = (calculate_employee_payroll e).sub_total
          - (calculate_employee_payroll e).total_deductions
    ∧ (calculate_employee_payroll c1emp).sub_total = 900
    ∧ (calculate_employee_payroll c1emp).total_deductions = 170
    ∧ (calculate_employee_payroll c1emp).net_pay = 730 :=
  ⟨rfl, rfl, rfl, by decide, by decide, by decide⟩

/-- C9: safe_float strips separators and currency symbols and keeps only
digits, dot and minus, so 1,234.50 with a dollar sign parses to 1234.50;
empty strings, a lone minus, en and em dashes and unparseable text yield
the caller-supplied default for every default; parse_percent divides the
parsed number by 100 after removing percent signs, and returns its default
on empty input.  Both functions are total, so no input raises. -/
theorem C9_numeric_normalizer (d : ℚ) :
    safe_float "$1,234.50" d = 1234.5
    ∧ safe_float "" d = d
    ∧ safe_float "-" d = d
    ∧ safe_float "–" d = d
    ∧ safe_float "—" d = d
    ∧ safe_float "N/A" d = d
    ∧ parse_percent "12%" d = 0.12
    ∧ parse_percent "" (1 / 20) = 1 / 20 := by
  refine ⟨?_, ?_, ?_, ?_, ?_, ?_, ?_, by decide⟩ <;>
    simp only [safe_float, parse_percent,
      show safeFloatCore "$1,234.50" = some (1234.5 : ℚ) from by decide,
      show safeFloatCore "" = none from by decide,
      show safeFloatCore "-" = none from by decide,
      show safeFloatCore "–" = none from by decide,
      show safeFloatCore "—" = none from by decide,
      show safeFloatCore "N/A" = none from by decide,
      show parsePercentCore "12%" = some (0.12 : ℚ) from by decide,
      Option.getD_some, Option.getD_none]

/-- C4: the claim says that with no per hour row, header detection falls
back to a period-pattern scan and that detect_periods returns False
without raising when nothing matches.  In the source the fallback scan
(line 140) evaluates the undefined name period_pattern, so on any CSV with
no per hour row and at least one nonempty cell detect_periods raises
NameError instead of returning False; only a CSV whose cells are all empty
reaches the False return.  The model evaluates both paths on concrete
inputs. -/
theorem C4_detect_periods_fallback_raises :
    detect_periods c4rows = Except.error "NameError: name period_pattern is not defined"
    ∧ hasPerHour ["Seq.", "NAME", "Jan 1-15", "Jan 16-31"] = false
    ∧ detect_periods [["", ""]] = Except.ok { ok := false, periods := [] } :=
  ⟨rfl, by decide, rfl⟩

/-- C3: the claim says that with zero detected periods the summary and tax
fields and the primary email are still resolved for every accepted row.
In the source the whole summary block (lines 393 to 480) is indented inside
the per-period loop, so with zero periods it never runs: on the concrete
accepted row below, the W/ TAX RATE column resolves to index 4 and holds
10 percent, yet the stored tax rate stays 0 and no email is forwarded to
the address book, although the row itself is appended to the ledger. -/
theorem C3_zero_periods_summary_skipped :
    rowAccepted c3ctx c3row = true
    ∧ idxTaxRateOf c3ctx = some 4
    ∧ parse_percent "10%" 0 = 1 / 10
    ∧ ((processRow c3ctx c3row).1).tax_rate = 0
    ∧ ((1 : ℚ) / 10) ≠ 0
    ∧ (processRow c3ctx c3row).2 = none
    ∧ ((processRow c3ctx c3row).1).email = "alice@example.com"
    ∧ load_employee_data c3ctx [c3row] = [(processRow c3ctx c3row).1] := by
  refine ⟨by decide, by decide, by decide, by decide, by decide, by decide, by decide, ?_⟩
  simp [load_employee_data, show rowAccepted c3ctx c3row = true from by decide]

/-- C2 counterexample: an accepted data row whose amount-earned column is
present, nonblank and parses to 250, but for which zero periods were
detected: the override (line 421) sits inside the per-period loop, so the
total gross stays 0 instead of 250. -/
theorem C2_counterexample :
    rowAccepted c2ctx c2row = true
    ∧ c2ctx.periods = []
    ∧ overrideValOf c2ctx c2row = some 250
    ∧ ((processRow c2ctx c2row).1).total_gross = 0
    ∧ ((0 : ℚ) ≠ 250) :=
  ⟨by decide, rfl, by decide, by decide, by decide⟩

/-- C6 counterexample: on this accepted row no explicit adjustment-amount
column resolves, adjustment hours are 2 at rate 10 (a computed hours times
rate adjustment of 20), a net amount earned of 150 is present and the
gross is 200; the claim says the gross-minus-net inference only triggers
when no hours-times-rate adjustment exists, but the source (line 441) does
not test that, so the stored adjustment amount is 50, not 20. -/
theorem C6_counterexample :
    rowAccepted c6ctx c6row = true
    ∧ idxAdjAmountOf c6ctx = none
    ∧ ((processRow c6ctx c6row).1).adjustment_hours = 2
    ∧ ((processRow c6ctx c6row).1).hourly_rate = 10
    ∧ ((processRow c6ctx c6row).1).net_amount_earned = some 150
    ∧ ((processRow c6ctx c6row).1).total_gross = 200
    ∧ ((processRow c6ctx c6row).1).adjustment_amount = 50
    ∧ ((50 : ℚ) ≠ 2 * 10) :=
  ⟨by decide, by decide, by decide, by decide, by decide, by decide, by decide, by decide⟩

/-- C7 counterexample: the Excel filling rounds each displayed sub-total to
cents, so with an absolute withholding amount of 0.0098 the placement 15
yields a deduction total of 0.01 while the placement both yields 0: the two
sub-totals do not sum to the same total deductions for every placement. -/
theorem C7_counterexample :
    (excel_fill_template [] c7emp "15").total_ded = 0.01
    ∧ (excel_fill_template [] c7emp "both").total_ded = 0
    ∧ (excel_fill_template [] c7emp "15").total_ded
        ≠ (excel_fill_template [] c7emp "both").total_ded :=
  ⟨by decide, by decide, by decide⟩

/-- C2 amended: for an accepted data row all of whose detected period
columns lie inside the row, total_gross is the sum over the periods of the
parsed hours times the hourly rate, unless the amount-earned column is
present, nonblank and parseable, in which case (provided at least one
period column lies inside the row, since the override runs inside the
per-period loop) total_gross is exactly the parsed override value. -/
theorem C2_total_gross_amended (ctx : RowCtx) (row : List String)
    (hin : ∀ p ∈ ctx.periods, p.column_index < row.length) :
    (overrideValOf ctx row = none →
      ((processRow ctx row).1).total_gross
        = (ctx.periods.map
            (fun p => periodHours row p * (initEmployee ctx row).hourly_rate)).sum)
    ∧ (∀ v, overrideValOf ctx row = some v → ctx.periods ≠ [] →
      ((processRow ctx row).1).total_gross = v) := by
  have hfil : ctx.periods.filter (fun p => decide (p.column_index < row.length)) = ctx.periods :=
    List.filter_eq_self.mpr (fun p hp => by simpa using hin p hp)
  constructor
  · intro hov
    unfold processRow
    rw [foldPeriods_gross_noOverride ctx row hov ctx.periods (initEmployee ctx row, none), hfil]
    have h0 : ((initEmployee ctx row, (none : Option String)).1).total_gross = 0 := rfl
    rw [h0, zero_add]
  · intro v hov hne
    obtain ⟨c, hc, hv⟩ := Option.bind_eq_some.mp hov
    exact foldPeriods_gross_override ctx row c v hc hv ctx.periods _ (by rw [hfil]; exact hne)

/-- C2 amended witness: the two-period row with 10 and 5 hours at rate 20
and no override totals 300; with an explicit 250 in AMOUNT EARNED the
total is 250. -/
theorem C2_total_gross_amended_witness :
    ((processRow c2bctx c2brow).1).total_gross = 300
    ∧ ((processRow c2cctx c2crow).1).total_gross = 250 := by
  constructor
  · have h := (C2_total_gross_amended c2bctx c2brow (by decide)).1 (by decide)
    rw [h]; decide
  · exact (C2_total_gross_amended c2cctx c2crow (by decide)).2 250 (by decide) (by decide)

/-- C8: every accepted row appends exactly one entry and every other row
is skipped, so the ledger length is the count of rows whose sequence cell
is numeric, not the total row count; loading distributes over
concatenation, so a malformed row affects only itself and never aborts
the rest of the load. -/
theorem C8_row_gate (ctx : RowCtx) (rows rows2 : List (List String)) (row : List String) :
    (load_employee_data ctx rows).length = rows.countP (fun r => rowAccepted ctx r)
    ∧ load_employee_data ctx (rows ++ rows2)
        = load_employee_data ctx rows ++ load_employee_data ctx rows2
    ∧ load_employee_data ctx [row]
        = (if rowAccepted ctx row then [(processRow ctx row).1] else []) := by
  refine ⟨?_, ?_, ?_⟩
  · induction rows with
    | nil => rfl
    | cons r rs ih =>
      by_cases h : rowAccepted ctx r <;>
        simp [load_employee_data, h, ih, List.countP_cons]
  · induction rows with
    | nil => rfl
    | cons r rs ih =>
      by_cases h : rowAccepted ctx r <;> simp [load_employee_data, h, ih]
  · by_cases h : rowAccepted ctx row <;> simp [load_employee_data, h]

/-- C6 amended: in the adjustment steps of the row pipeline (with e the
employee state entering them), an explicit nonzero adjustment amount wins
and survives the inference; with no explicit amount and no net figure the
adjustment is hours times rate; when the explicit amount is absent or
zero, a net figure is present and gross minus net exceeds 1e-6 in
absolute value, the inference overwrites the adjustment with gross minus
net even when hours times rate is nonzero; below the epsilon the
hours-times-rate value stands. -/
theorem C6_adjustment_amended (ctx : RowCtx) (row : List String) (e : Employee) :
    (∀ v, adjCsvOf ctx row = some v → v ≠ 0 →
        (adjInferStep ctx row (adjBaseStep ctx row e)).adjustment_amount = v)
    ∧ (adjCsvOf ctx row = none → netCsvOf ctx row = none →
        (adjInferStep ctx row (adjBaseStep ctx row e)).adjustment_amount
          = e.adjustment_hours * e.hourly_rate)
    ∧ (∀ n, netCsvOf ctx row = some n →
        (adjCsvOf ctx row = none ∨ adjCsvOf ctx row = some 0) →
        pyAbs (e.total_gross - n) > 1 / 1000000 →
        (adjInferStep ctx row (adjBaseStep ctx row e)).adjustment_amount = e.total_gross - n)
    ∧ (∀ n, netCsvOf ctx row = some n → adjCsvOf ctx row = none →
        ¬ pyAbs (e.total_gross - n) > 1 / 1000000 →
        (adjInferStep ctx row (adjBaseStep ctx row e)).adjustment_amount
          = e.adjustment_hours * e.hourly_rate) := by
  refine ⟨?_, ?_, ?_, ?_⟩
  · intro v hv hv0
    rcases hn : netCsvOf ctx row with _ | n
    · simp only [adjInferStep_adjustment, hn]
      rw [adjBaseStep_adjustment, hv, Option.getD_some]
    · simp only [adjInferStep_adjustment, hn, adjBaseStep_gross]
      rw [if_neg, adjBaseStep_adjustment, hv, Option.getD_some]
      rintro ⟨h | h, -⟩
      · rw [hv] at h; exact Option.noConfusion h
      · rw [hv] at h
        exact hv0 (Option.some.injEq v 0 ▸ h ▸ rfl)
  · intro hv hn
    simp only [adjInferStep_adjustment, hn]
    rw [adjBaseStep_adjustment, hv, Option.getD_none]
  · intro n hn hv habs
    simp only [adjInferStep_adjustment, hn, adjBaseStep_gross]
    rw [if_pos ⟨hv, habs⟩]
  · intro n hn hv habs
    simp only [adjInferStep_adjustment, hn, adjBaseStep_gross]
    rw [if_neg, adjBaseStep_adjustment, hv, Option.getD_none]
    rintro ⟨-, h⟩
    exact habs h

/-- C6 amended witness: with an explicit 40 the adjustment is 40; with no
columns it is hours times rate 20; with only a net of 150 against gross
200 the inference yields 50; with net equal to gross the difference is
below the epsilon and hours times rate stands. -/
theorem C6_adjustment_amended_witness :
    (adjInferStep c6wctx1 ["1", "40", "150"]
        (adjBaseStep c6wctx1 ["1", "40", "150"] c6emp0)).adjustment_amount = 40
    ∧ (adjInferStep c6wctx2 ["1"] (adjBaseStep c6wctx2 ["1"] c6emp0)).adjustment_amount = 20
    ∧ (adjInferStep c6wctx3 ["1", "150"]
        (adjBaseStep c6wctx3 ["1", "150"] c6emp0)).adjustment_amount = 50
    ∧ (adjInferStep c6wctx3 ["1", "200"]
        (adjBaseStep c6wctx3 ["1", "200"] c6emp0)).adjustment_amount = 20 := by
  refine ⟨?_, ?_, ?_, ?_⟩
  · exact (C6_adjustment_amended c6wctx1 ["1", "40", "150"] c6emp0).1 40 (by decide) (by decide)
  · have h := (C6_adjustment_amended c6wctx2 ["1"] c6emp0).2.1 (by decide) (by decide)
    rw [h]; decide
  · have h := (C6_adjustment_amended c6wctx3 ["1", "150"] c6emp0).2.2.1 150 (by decide)
      (Or.inl (by decide)) (by decide)
    rw [h]; decide
  · have h := (C6_adjustment_amended c6wctx3 ["1", "200"] c6emp0).2.2.2 200 (by decide)
      (by decide) (by decide)
    rw [h]; decide

/-- C7 amended: in the PDF payslip computation, total_deductions and
net_pay are identical for every placement string; the 15th and 30th
sub-totals always sum to total_deductions; placement 15 puts the full
withholding and percent amounts on the first date and zero on the second,
placement 30 the reverse, and placement both puts half on each.  (In the
Excel filling the sub-totals are rounded to cents first, so its totals can
differ across placements by rounding, as C7_counterexample shows.) -/
theorem C7_pdf_placement_invariance (e : Employee) (wp wp2 : String) :
    (generate_pdf_payslip_summary e wp).total_deductions
        = (generate_pdf_payslip_summary e wp2).total_deductions
    ∧ (generate_pdf_payslip_summary e wp).net_pay
        = (generate_pdf_payslip_summary e wp2).net_pay
    ∧ (generate_pdf_payslip_summary e wp).total_15 + (generate_pdf_payslip_summary e wp).total_30
        = (generate_pdf_payslip_summary e wp).total_deductions
    ∧ (generate_pdf_payslip_summary e "15").w_15 = (generate_pdf_payslip_summary e "15").w_amount
    ∧ (generate_pdf_payslip_summary e "15").w_30 = 0
    ∧ (generate_pdf_payslip_summary e "15").p_15 = (generate_pdf_payslip_summary e "15").p_amount
    ∧ (generate_pdf_payslip_summary e "15").p_30 = 0
    ∧ (generate_pdf_payslip_summary e "30").w_15 = 0
    ∧ (generate_pdf_payslip_summary e "30").w_30 = (generate_pdf_payslip_summary e "30").w_amount
    ∧ (generate_pdf_payslip_summary e "30").p_15 = 0
    ∧ (generate_pdf_payslip_summary e "30").p_30 = (generate_pdf_payslip_summary e "30").p_amount
    ∧ (generate_pdf_payslip_summary e "both").w_15
        = (generate_pdf_payslip_summary e "both").w_amount / 2
    ∧ (generate_pdf_payslip_summary e "both").w_30
        = (generate_pdf_payslip_summary e "both").w_amount / 2 := by
  have hded : (generate_pdf_payslip_summary e wp).total_deductions
      = (generate_pdf_payslip_summary e wp2).total_deductions := by
    rw [pdf_total_deductions, pdf_total_deductions]
    rfl
  refine ⟨hded, ?_, rfl, rfl, rfl, rfl, rfl, rfl, rfl, rfl, rfl, rfl, rfl⟩
  rw [pdf_net_pay_eq, pdf_net_pay_eq, hded]
  rfl

/-- C5: in the PDF payslip computation each deduction amount is the
explicit absolute amount when it is nonzero and the rate product with
gross otherwise; in the Excel filling, when the corresponding rate is
absent and an absolute amount is present and the salary earned is
positive, the displayed rate is back-derived as amount divided by salary
earned. -/
theorem C5_deduction_precedence (e : Employee) (wp : String) (periods : List PeriodCol) :
    (generate_pdf_payslip_summary e wp).w_amount
      = (if e.withholding_amount ≠ 0 then e.withholding_amount
         else (generate_pdf_payslip_summary e wp).gross * e.withholding_rate)
    ∧ (generate_pdf_payslip_summary e wp).p_amount
      = (if e.percent_tax ≠ 0 then e.percent_tax
         else (generate_pdf_payslip_summary e wp).gross * e.p_tax_rate)
    ∧ (e.withholding_rate = 0 → e.tax_rate = 0 → e.withholding_amount ≠ 0 →
        (excel_fill_template periods e wp).sal_earned > 0 →
        (excel_fill_template periods e wp).w_amt = e.withholding_amount
        ∧ (excel_fill_template periods e wp).w_rate
            = e.withholding_amount / (excel_fill_template periods e wp).sal_earned)
    ∧ (e.p_tax_rate = 0 → e.percent_tax ≠ 0 →
        (excel_fill_template periods e wp).sal_earned > 0 →
        (excel_fill_template periods e wp).p_amt = e.percent_tax
        ∧ (excel_fill_template periods e wp).p_rate
            = e.percent_tax / (excel_fill_template periods e wp).sal_earned) := by
  refine ⟨?_, ?_, ?_, ?_⟩
  · by_cases h1 : e.withholding_amount = 0 <;> by_cases h2 : e.withholding_rate = 0 <;>
      simp [generate_pdf_payslip_summary, h1, h2]
  · by_cases h1 : e.percent_tax = 0 <;> by_cases h2 : e.p_tax_rate = 0 <;>
      simp [generate_pdf_payslip_summary, h1, h2]
  · intro hw ht ha hs
    have hg : (excel_fill_template periods e wp).sal_earned ≠ 0 := ne_of_gt hs
    have hamt : (excel_fill_template periods e wp).w_amt = e.withholding_amount := by
      rw [excel_w_amt_eq]
      simp [hw, ht, ha]
    refine ⟨hamt, ?_⟩
    rw [excel_w_rate_eq, hamt]
    simp [hw, ht, ha, hg]
  · intro hp ha hs
    have hg : (excel_fill_template periods e wp).sal_earned ≠ 0 := ne_of_gt hs
    have hamt : (excel_fill_template periods e wp).p_amt = e.percent_tax := by
      rw [excel_p_amt_eq]
      simp [hp, ha]
    refine ⟨hamt, ?_⟩
    rw [excel_p_rate_eq, hamt]
    simp [hp, ha, hg]

/-- C5 witness: with rates 0, an absolute withholding of 7 and an absolute
percent tax of 3 over a salary earned of 100, the Excel back-derived
display rates are 0.07 and 0.03, and the PDF withholding amount is the
absolute 7. -/
theorem C5_deduction_precedence_witness :
    (excel_fill_template c5periods c5emp "both").w_rate = 7 / 100
    ∧ (excel_fill_template c5periods c5emp "both").p_rate = 3 / 100
    ∧ (generate_pdf_payslip_summary c5emp "both").w_amount = 7 := by
  have h := C5_deduction_precedence c5emp "both" c5periods
  refine ⟨?_, ?_, ?_⟩
  · have h3 := h.2.2.1 (by decide) (by decide) (by decide) (by decide)
    rw [h3.2]; decide
  · have h4 := h.2.2.2 (by decide) (by decide) (by decide)
    rw [h4.2]; decide
  · rw [h.1]; decide

/-- C10: apply_to_employees maps each entry to itself when its email is
nonblank after stripping; a blank-email entry gets exactly its email field
replaced by the identity lookup (sequence, then account number, then
normalized name), and keeps its own email when the lookup misses; no other
field of any entry changes, and the list length is preserved since this is
a map. -/
theorem C10_apply_never_overwrites (st : EmailStoreM) (emps : List Employee) :
    apply_to_employees st emps
      = emps.map (fun a =>
          if pyStrip a.email = "" then
            { a with email := (storeLookup st a.seq a.account_no a.name).getD a.email }
          else a) := by
  unfold apply_to_employees
  apply List.map_congr_left
  intro a _
  by_cases h : pyStrip a.email = ""
  · rw [show pyCleanLower a.email = none from by simp [pyCleanLower, pyClean, h]]
    rcases hl : storeLookup st a.seq a.account_no a.name with _ | v <;> simp [hl, h]
  · rw [show pyCleanLower a.email = some (pyLower (pyStrip a.email)) from by
      simp [pyCleanLower, pyClean, h]]
    simp [h]
